import Mathlib

set_option maxRecDepth 8000

/-!
Verification of the go-shheissee monitoring-and-mitigation core.

This file is a shallow embedding of the monitoring, detection and mitigation
code of the repository (pkg/monitors/monitors.go and the detector package's
blocker) together with theorems settling the specification claims.

Conventions of the embedding:
* Go strings are Lean `String`; `strings.Contains` is substring containment
  on character lists; `strings.Fields`, `strings.TrimSpace`, `strings.Split`,
  `strings.SplitN(·, ·, 2)` are modelled below.
* `time.Time` values are opaque tags, modelled as `Nat` parameters (`now`).
* The external world (which command-line tools exist, what they print,
  whether an invocation exits zero) is a `World` record; the n-th external
  command run by one operation succeeds iff `runOk n` is true.
* Go maps keyed by strings are association lists that hold at most one entry
  per key (every insertion site first checks for absence, as the Go code does).
* A Go method that can fail returns `State × Option String` here: the
  post-state together with `some errorMessage` on failure, `none` on success.
-/

/-- Go `strings.Contains s pat`: `pat` occurs as a contiguous substring of `s`. -/
def strContains (s pat : String) : Bool :=
  decide (pat.toList <:+: s.toList)

/-- Go `strings.Fields`: split around runs of whitespace, dropping empties. -/
def goFields (s : String) : List String :=
  (s.split fun c => c.isWhitespace).filter (· ≠ "")

/-- Go `strings.TrimSuffix s ":"`. -/
def trimColon (s : String) : String :=
  if s.endsWith ":" then s.dropRight 1 else s

/-- Split a character list at every occurrence of `sep` (Go `strings.Split`
for a one-character separator, on the character level). -/
def splitChar (sep : Char) : List Char → List (List Char)
  | [] => [[]]
  | c :: rest =>
    if c = sep then [] :: splitChar sep rest
    else
      match splitChar sep rest with
      | h :: t => (c :: h) :: t
      | [] => [[c]]

/-- Go `strings.Split s (String.singleton sep)`. -/
def goSplit (s : String) (sep : Char) : List String :=
  (splitChar sep s.toList).map fun cs => String.mk cs

/-- Join pieces back with a separator (used to model `SplitN`'s second
piece, which keeps all later separators). -/
def joinWith (sep : String) : List String → String
  | [] => ""
  | [x] => x
  | x :: rest => x ++ sep ++ joinWith sep rest

/-- Go `strings.SplitN s sep 2` for a one-character separator: at most two
pieces, the second keeps later separators. -/
def splitN2 (s : String) (sep : Char) : List String :=
  match goSplit s sep with
  | [] => [s]
  | [p] => [p]
  | p :: rest => [p, joinWith (String.mk [sep]) rest]

/-- Go `strings.TrimSpace` (on the character level). -/
def goTrim (s : String) : String :=
  String.mk
    (((s.toList.dropWhile (·.isWhitespace)).reverse.dropWhile
      (·.isWhitespace)).reverse)

/-- A finding, `monitors.Attack` / `models.Attack` (timestamps are `Nat`). -/
structure Attack where
  type : String
  severity : String
  description : String
  target : String
  timestamp : Nat
deriving DecidableEq

/-- `monitors.WifiAP`. -/
structure WifiAP where
  bssid : String
  pwr : Int
  beacons : Nat
  enc : String
  essid : String
deriving DecidableEq

/-- `monitors.BluetoothDevice`. -/
structure BluetoothDevice where
  address : String
  name : String
deriving DecidableEq

/-- `monitors.NetworkInfo`. -/
structure NetworkInfo where
  online : Bool
  avgLatency : String
deriving DecidableEq

/-- `monitors.AddAttack` (monitors.go:1072-1082): append the finding, then
keep only the last 1000 entries. -/
def addAttack (attacks : List Attack) (attack : Attack) : List Attack :=
  let l := attacks ++ [attack]
  if l.length > 1000 then l.drop (l.length - 1000) else l

theorem foldl_addAttack (fs : List Attack) :
    ∀ s : List Attack, s.length ≤ 1000 →
      List.foldl addAttack s fs = (s ++ fs).drop (s.length + fs.length - 1000) := by
  induction fs with
  | nil =>
    intro s hs
    simp only [List.foldl_nil, List.append_nil, List.length_nil, Nat.add_zero]
    rw [Nat.sub_eq_zero_of_le hs, List.drop_zero]
  | cons a fs ih =>
    intro s hs
    rw [List.foldl_cons]
    by_cases hlen : s.length + 1 ≤ 1000
    · have hstep : addAttack s a = s ++ [a] := by
        unfold addAttack
        simp only [List.length_append, List.length_singleton]
        rw [if_neg (by omega)]
      rw [hstep, ih (s ++ [a]) (by simpa using hlen)]
      simp only [List.length_append, List.length_singleton, List.append_assoc,
        List.singleton_append, List.length_cons, List.length_nil]
      have e : s.length + (0 + 1) + fs.length - 1000 = s.length + (fs.length + 1) - 1000 := by
        omega
      rw [e]
    · have hs1000 : s.length = 1000 := by omega
      obtain ⟨b, s', rfl⟩ : ∃ b s', s = b :: s' := by
        cases s with
        | nil => simp at hs1000
        | cons b s' => exact ⟨b, s', rfl⟩
      have h999 : s'.length = 999 := by simpa using hs1000
      have hstep : addAttack (b :: s') a = s' ++ [a] := by
        unfold addAttack
        simp only [List.cons_append, List.length_cons, List.length_append,
          List.length_singleton, h999]
        rw [if_pos (by omega)]
        simp
      rw [hstep, ih (s' ++ [a]) (by simp [h999])]
      have e1 : (s' ++ [a]).length + fs.length - 1000 = fs.length := by
        simp [h999]
      have e2 : (b :: s').length + (a :: fs).length - 1000 = fs.length + 1 := by
        simp only [List.length_cons, h999]
        omega
      rw [e1, e2, List.append_assoc, List.singleton_append, List.cons_append,
        List.drop_succ_cons]

/-- C1: every sequence of findings appended through `AddAttack` keeps the
retained log at length at most 1000, and eviction is FIFO: appending a
sequence of 1001 findings in order to an empty log retains exactly the
findings with the first (oldest) one dropped. -/
theorem addAttack_bounded_and_fifo (fs : List Attack) :
    (List.foldl addAttack [] fs).length ≤ 1000 ∧
      (fs.length = 1001 → List.foldl addAttack [] fs = fs.drop 1) := by
  have h := foldl_addAttack fs [] (by simp)
  simp only [List.length_nil, Nat.zero_add, List.nil_append] at h
  constructor
  · rw [h, List.length_drop]
    omega
  · intro h1001
    rw [h, h1001]

/-- A placeholder finding used for concrete witnesses. -/
def arbitraryAttack : Attack :=
  { type := "UNKNOWN_DEVICE", severity := "Low", description := "d",
    target := "t", timestamp := 0 }

/-- Witness for C1 at a concrete sequence of 1001 findings. -/
theorem addAttack_bounded_and_fifo_witness :
    (List.replicate 1001 arbitraryAttack).length = 1001 ∧
      List.foldl addAttack [] (List.replicate 1001 arbitraryAttack) =
        (List.replicate 1001 arbitraryAttack).drop 1 :=
  ⟨by simp, (addAttack_bounded_and_fifo (List.replicate 1001 arbitraryAttack)).2 (by simp)⟩

/-- The log-entry update pattern shared by the network, Bluetooth, BLE, radio
and fallback-Wi-Fi samplers (for example monitors.go:216-219): append the
event, then keep only the last 10 entries. -/
def appendLogTrim10 (entries : List String) (e : String) : List String :=
  let l := entries ++ [e]
  if l.length > 10 then l.drop (l.length - 10) else l

/-- The Wi-Fi sampler's own log-entry updates (monitors.go:159, 172 and 185,
i.e. the airodump-ng-missing, monitor-interface-error and
interface-selected events): append only, with no trimming. -/
def wifiAppendLogNoTrim (entries : List String) (e : String) : List String :=
  entries ++ [e]

/-- C4 (code bug): the claimed invariant "recentEvents length never exceeds
10" fails on the Wi-Fi sampler's direct log appends, which never trim.
Eleven consecutive Wi-Fi passes through the airodump-ng-missing path
(monitors.go:159) leave 11 retained entries, while the trimming pattern used
by every other sampler would have kept 10. -/
theorem wifiLogEntries_exceed_cap :
    (List.foldl wifiAppendLogNoTrim []
        (List.replicate 11 "airodump-ng not found")).length = 11 ∧
      ¬ (List.foldl wifiAppendLogNoTrim []
          (List.replicate 11 "airodump-ng not found")).length ≤ 10 ∧
      (List.foldl appendLogTrim10 []
          (List.replicate 11 "airodump-ng not found")).length = 10 := by
  decide

/-- The write phase of `MonitorBluetooth`'s sample replacement
(monitors.go:315-352) as the sequence of its lock-protected critical
sections: one acquisition clears the shared slice (lines 316-318), then each
parsed device is appended under its own separate acquisition (lines 332-334
and 347-349). Each list element is the state transformation performed by one
critical section; a concurrent reader holding the read lock can observe the
shared state at any boundary between them. `MonitorAirTag` (lines 444-471)
has the same shape for BLE devices. -/
def btReplaceActions (newDevs : List BluetoothDevice) :
    List (List BluetoothDevice → List BluetoothDevice) :=
  (fun _ => []) :: newDevs.map (fun d s => s ++ [d])

/-- All states of the shared `BtDevices` slice that a reader can observe
while `MonitorBluetooth` replaces the sample set `old` with the parsed
devices `newDevs`: the state before the write phase and the state after each
critical section. -/
def observedStates (old : List BluetoothDevice)
    (newDevs : List BluetoothDevice) : List (List BluetoothDevice) :=
  (btReplaceActions newDevs).scanl (fun s f => f s) old

/-- C3 counterexample: sample replacement is not atomic. With the prior
sample set `[AA]` and the newly parsed devices `[BB, CC]`, a reader can
observe the empty slice (after the clearing critical section released the
lock), which is neither the complete old sample set nor the complete new
one. -/
theorem btReplace_not_atomic :
    [] ∈ observedStates [⟨"AA", "x"⟩] [⟨"BB", "y"⟩, ⟨"CC", "z"⟩] ∧
      ([] : List BluetoothDevice) ≠ [⟨"AA", "x"⟩] ∧
      ([] : List BluetoothDevice) ≠ [⟨"BB", "y"⟩, ⟨"CC", "z"⟩] := by
  decide

theorem mem_scanl_append_acts (newDevs : List BluetoothDevice) :
    ∀ (acc st : List BluetoothDevice),
      st ∈ (newDevs.map (fun d s => s ++ [d])).scanl (fun s f => f s) acc →
        ∃ k, k ≤ newDevs.length ∧ st = acc ++ newDevs.take k := by
  induction newDevs with
  | nil =>
    intro acc st hst
    simp only [List.map_nil, List.scanl_nil, List.mem_singleton] at hst
    exact ⟨0, by simp, by simp [hst]⟩
  | cons d ds ih =>
    intro acc st hst
    simp only [List.map_cons, List.scanl_cons, List.singleton_append,
      List.mem_cons] at hst
    rcases hst with rfl | hst
    · exact ⟨0, by simp, by simp⟩
    · obtain ⟨k, hk, hst⟩ := ih (acc ++ [d]) st hst
      refine ⟨k + 1, by simpa using hk, ?_⟩
      rw [hst, List.take_succ_cons, List.append_assoc, List.singleton_append]

/-- C3 amended: during one domain's sample replacement a reader observes
either the old sample set (before the clearing critical section) or a prefix
of the new one (the empty slice after clearing, then each partially appended
state, ending in the complete new set); it never observes any other value,
but intermediate prefixes are observable, so the replacement is not an
all-or-nothing swap. -/
theorem btReplace_observed_states (old newDevs : List BluetoothDevice)
    (st : List BluetoothDevice) (hst : st ∈ observedStates old newDevs) :
    st = old ∨ ∃ k, k ≤ newDevs.length ∧ st = newDevs.take k := by
  unfold observedStates btReplaceActions at hst
  rw [List.scanl_cons, List.singleton_append] at hst
  rcases List.mem_cons.mp hst with rfl | hst
  · exact Or.inl rfl
  · right
    have h := mem_scanl_append_acts newDevs [] st (by simpa using hst)
    simpa using h

/-- Witness for the amended C3 at a concrete replacement: the partially
appended state `[BB]` is observable and is the length-1 prefix of the new
sample set. -/
theorem btReplace_observed_states_witness :
    [(⟨"BB", "y"⟩ : BluetoothDevice)] ∈
        observedStates [⟨"AA", "x"⟩] [⟨"BB", "y"⟩, ⟨"CC", "z"⟩] ∧
      ([(⟨"BB", "y"⟩ : BluetoothDevice)] = [⟨"AA", "x"⟩] ∨
        ∃ k, k ≤ ([⟨"BB", "y"⟩, ⟨"CC", "z"⟩] : List BluetoothDevice).length ∧
          [(⟨"BB", "y"⟩ : BluetoothDevice)] =
            ([⟨"BB", "y"⟩, ⟨"CC", "z"⟩] : List BluetoothDevice).take k) :=
  ⟨by decide,
    btReplace_observed_states [⟨"AA", "x"⟩] [⟨"BB", "y"⟩, ⟨"CC", "z"⟩]
      [⟨"BB", "y"⟩] (by decide)⟩

/-- The external environment one operation runs against: which command-line
tools `exec.LookPath` finds, what output selected commands produce, and
whether the n-th external invocation performed by the operation exits zero
(`runOk n`). -/
structure World where
  ufwAvail : Bool
  firewallCmdAvail : Bool
  iptablesAvail : Bool
  ebtablesAvail : Bool
  rfkillAvail : Bool
  aireplayAvail : Bool
  nmapAvail : Bool
  nmapOutput : Option String
  iwconfigOutput : Option String
  runOk : Nat → Bool

/-- The `detector.Blocker`'s guarded state (part_003:15-22): the three
blocked-address maps and the auto-block flag. -/
structure BlockerState where
  blockedIPs : List (String × Nat)
  blockedMACs : List (String × Nat)
  blockedBTAddrs : List (String × Nat)
  autoBlock : Bool
deriving DecidableEq

/-- `Blocker.BlockIP` (part_003:36-78). Rejects an already-blocked address,
then selects ufw, else firewalld, else iptables. In the firewalld branch the
add-rich-rule command runs immediately; the shared run site at part_003:66-71
then runs the reload command if the add succeeded, and re-runs the add
command if it failed. The address is recorded only after every required run
succeeded. -/
def blockIP (w : World) (now : Nat) (s : BlockerState) (ip reason : String) :
    BlockerState × Option String :=
  if (s.blockedIPs.lookup ip).isSome then
    (s, some ("IP " ++ ip ++ " is already blocked"))
  else if w.ufwAvail then
    if w.runOk 0 then
      ({ s with blockedIPs := (ip, now) :: s.blockedIPs }, none)
    else (s, some ("failed to block IP " ++ ip))
  else if w.firewallCmdAvail then
    if w.runOk 0 then
      if w.runOk 1 then
        ({ s with blockedIPs := (ip, now) :: s.blockedIPs }, none)
      else (s, some ("failed to block IP " ++ ip))
    else
      if w.runOk 1 then
        ({ s with blockedIPs := (ip, now) :: s.blockedIPs }, none)
      else (s, some ("failed to block IP " ++ ip))
  else if w.iptablesAvail then
    if w.runOk 0 then
      ({ s with blockedIPs := (ip, now) :: s.blockedIPs }, none)
    else (s, some ("failed to block IP " ++ ip))
  else (s, some "no supported firewall tool found (ufw, firewalld, iptables)")

/-- `Blocker.UnblockIP` (part_003:81-117). Rejects a not-blocked address,
then mirrors the same tool cascade with the inverse operation (including the
firewalld re-run quirk of the shared run site). -/
def unblockIP (w : World) (s : BlockerState) (ip : String) :
    BlockerState × Option String :=
  if (s.blockedIPs.lookup ip).isNone then
    (s, some ("IP " ++ ip ++ " is not blocked"))
  else if w.ufwAvail then
    if w.runOk 0 then
      ({ s with blockedIPs := s.blockedIPs.filter (fun e => e.1 ≠ ip) }, none)
    else (s, some ("failed to unblock IP " ++ ip))
  else if w.firewallCmdAvail then
    if w.runOk 0 then
      if w.runOk 1 then
        ({ s with blockedIPs := s.blockedIPs.filter (fun e => e.1 ≠ ip) }, none)
      else (s, some ("failed to unblock IP " ++ ip))
    else
      if w.runOk 1 then
        ({ s with blockedIPs := s.blockedIPs.filter (fun e => e.1 ≠ ip) }, none)
      else (s, some ("failed to unblock IP " ++ ip))
  else if w.iptablesAvail then
    if w.runOk 0 then
      ({ s with blockedIPs := s.blockedIPs.filter (fun e => e.1 ≠ ip) }, none)
    else (s, some ("failed to unblock IP " ++ ip))
  else (s, some "no supported firewall tool found")

/-- `Blocker.BlockMAC` (part_003:120-156). Rejects an already-blocked
address; tries ebtables and records on success; on ebtables failure or
absence falls back to iptables MAC matching; fails when neither path
succeeds. -/
def blockMAC (w : World) (now : Nat) (s : BlockerState) (mac reason : String) :
    BlockerState × Option String :=
  if (s.blockedMACs.lookup mac).isSome then
    (s, some ("MAC " ++ mac ++ " is already blocked"))
  else if w.ebtablesAvail then
    if w.runOk 0 then
      ({ s with blockedMACs := (mac, now) :: s.blockedMACs }, none)
    else if w.iptablesAvail then
      if w.runOk 1 then
        ({ s with blockedMACs := (mac, now) :: s.blockedMACs }, none)
      else (s, some ("failed to block MAC " ++ mac))
    else (s, some "no supported tool for MAC blocking (ebtables or iptables)")
  else if w.iptablesAvail then
    if w.runOk 0 then
      ({ s with blockedMACs := (mac, now) :: s.blockedMACs }, none)
    else (s, some ("failed to block MAC " ++ mac))
  else (s, some "no supported tool for MAC blocking (ebtables or iptables)")

/-- `Blocker.UnblockMAC` (part_003:159-193). -/
def unblockMAC (w : World) (s : BlockerState) (mac : String) :
    BlockerState × Option String :=
  if (s.blockedMACs.lookup mac).isNone then
    (s, some ("MAC " ++ mac ++ " is not blocked"))
  else if w.ebtablesAvail then
    if w.runOk 0 then
      ({ s with blockedMACs := s.blockedMACs.filter (fun e => e.1 ≠ mac) }, none)
    else if w.iptablesAvail then
      if w.runOk 1 then
        ({ s with blockedMACs := s.blockedMACs.filter (fun e => e.1 ≠ mac) }, none)
      else (s, some ("failed to unblock MAC " ++ mac))
    else (s, some "no supported tool for MAC unblocking")
  else if w.iptablesAvail then
    if w.runOk 0 then
      ({ s with blockedMACs := s.blockedMACs.filter (fun e => e.1 ≠ mac) }, none)
    else (s, some ("failed to unblock MAC " ++ mac))
  else (s, some "no supported tool for MAC unblocking")

/-- `Blocker.BlockBluetoothDevice` (part_003:196-219). Rejects an
already-blocked address; if rfkill is available it must succeed before the
address is recorded; without rfkill the address is recorded anyway. -/
def blockBluetoothDevice (w : World) (now : Nat) (s : BlockerState)
    (btAddr reason : String) : BlockerState × Option String :=
  if (s.blockedBTAddrs.lookup btAddr).isSome then
    (s, some ("Bluetooth device " ++ btAddr ++ " is already blocked"))
  else if w.rfkillAvail then
    if w.runOk 0 then
      ({ s with blockedBTAddrs := (btAddr, now) :: s.blockedBTAddrs }, none)
    else (s, some ("Failed to block Bluetooth device " ++ btAddr))
  else ({ s with blockedBTAddrs := (btAddr, now) :: s.blockedBTAddrs }, none)

/-- `Blocker.UnblockBluetoothDevice` (part_003:222-241). -/
def unblockBluetoothDevice (w : World) (s : BlockerState) (btAddr : String) :
    BlockerState × Option String :=
  if (s.blockedBTAddrs.lookup btAddr).isNone then
    (s, some ("Bluetooth device " ++ btAddr ++ " is not blocked"))
  else if w.rfkillAvail then
    if w.runOk 0 then
      ({ s with blockedBTAddrs := s.blockedBTAddrs.filter (fun e => e.1 ≠ btAddr) },
        none)
    else (s, some ("failed to unblock Bluetooth device " ++ btAddr))
  else ({ s with blockedBTAddrs := s.blockedBTAddrs.filter (fun e => e.1 ≠ btAddr) },
    none)

theorem lookup_none_countP_zero (m : List (String × Nat)) (k : String)
    (h : m.lookup k = none) : m.countP (fun e => e.1 == k) = 0 := by
  induction m with
  | nil => simp
  | cons e es ih =>
    rw [List.countP_cons]
    cases he : (k == e.1) with
    | true => simp [List.lookup, he] at h
    | false =>
      have hne : (e.1 == k) = false := by
        have := (beq_eq_false_iff_ne (a := k) (b := e.1)).mp he
        exact (beq_eq_false_iff_ne (a := e.1) (b := k)).mpr (Ne.symm this)
      have h' : es.lookup k = none := by
        simpa [List.lookup, he] using h
      simp [hne, ih h']

theorem blockIP_ok_shape {w : World} {now : Nat} {s : BlockerState}
    {ip r : String} {s' : BlockerState}
    (h : blockIP w now s ip r = (s', none)) :
    s'.blockedIPs = (ip, now) :: s.blockedIPs ∧
      s.blockedIPs.lookup ip = none ∧
      s'.blockedMACs = s.blockedMACs ∧
      s'.blockedBTAddrs = s.blockedBTAddrs ∧
      s'.autoBlock = s.autoBlock := by
  have hlk : s.blockedIPs.lookup ip = none := by
    cases hlk : s.blockedIPs.lookup ip with
    | none => rfl
    | some v =>
      unfold blockIP at h
      rw [if_pos (by simp [hlk])] at h
      exact absurd (congrArg Prod.snd h) (by simp)
  have hs' : s' = { s with blockedIPs := (ip, now) :: s.blockedIPs } := by
    unfold blockIP at h
    rw [if_neg (by simp [hlk])] at h
    split_ifs at h <;>
      first
        | exact ((Prod.mk.injEq _ _ _ _).mp h).1.symm
        | exact absurd ((Prod.mk.injEq _ _ _ _).mp h).2 (by simp)
  rw [hs']
  exact ⟨rfl, hlk, rfl, rfl, rfl⟩

theorem blockBluetoothDevice_ok_shape {w : World} {now : Nat}
    {s : BlockerState} {a r : String} {s' : BlockerState}
    (h : blockBluetoothDevice w now s a r = (s', none)) :
    s'.blockedBTAddrs = (a, now) :: s.blockedBTAddrs ∧
      s.blockedBTAddrs.lookup a = none ∧
      s'.blockedIPs = s.blockedIPs ∧
      s'.blockedMACs = s.blockedMACs ∧
      s'.autoBlock = s.autoBlock := by
  have hlk : s.blockedBTAddrs.lookup a = none := by
    cases hlk : s.blockedBTAddrs.lookup a with
    | none => rfl
    | some v =>
      unfold blockBluetoothDevice at h
      rw [if_pos (by simp [hlk])] at h
      exact absurd (congrArg Prod.snd h) (by simp)
  have hs' : s' = { s with blockedBTAddrs := (a, now) :: s.blockedBTAddrs } := by
    unfold blockBluetoothDevice at h
    rw [if_neg (by simp [hlk])] at h
    split_ifs at h <;>
      first
        | exact ((Prod.mk.injEq _ _ _ _).mp h).1.symm
        | exact absurd ((Prod.mk.injEq _ _ _ _).mp h).2 (by simp)
  rw [hs']
  exact ⟨rfl, hlk, rfl, rfl, rfl⟩

theorem blockIP_err_frame (w : World) (now : Nat) (s : BlockerState)
    (ip r : String) :
    (blockIP w now s ip r).2.isSome = true → (blockIP w now s ip r).1 = s := by
  unfold blockIP
  split_ifs <;> simp

theorem unblockIP_err_frame (w : World) (s : BlockerState) (ip : String) :
    (unblockIP w s ip).2.isSome = true → (unblockIP w s ip).1 = s := by
  unfold unblockIP
  split_ifs <;> simp

theorem blockMAC_err_frame (w : World) (now : Nat) (s : BlockerState)
    (mac r : String) :
    (blockMAC w now s mac r).2.isSome = true → (blockMAC w now s mac r).1 = s := by
  unfold blockMAC
  split_ifs <;> simp

theorem unblockMAC_err_frame (w : World) (s : BlockerState) (mac : String) :
    (unblockMAC w s mac).2.isSome = true → (unblockMAC w s mac).1 = s := by
  unfold unblockMAC
  split_ifs <;> simp

theorem blockBluetoothDevice_err_frame (w : World) (now : Nat)
    (s : BlockerState) (a r : String) :
    (blockBluetoothDevice w now s a r).2.isSome = true →
      (blockBluetoothDevice w now s a r).1 = s := by
  unfold blockBluetoothDevice
  split_ifs <;> simp

theorem unblockBluetoothDevice_err_frame (w : World) (s : BlockerState)
    (a : String) :
    (unblockBluetoothDevice w s a).2.isSome = true →
      (unblockBluetoothDevice w s a).1 = s := by
  unfold unblockBluetoothDevice
  split_ifs <;> simp

/-- C2: a Blocker mutation against an address already in the target state
fails and changes nothing. After a successful `blockIP`, a second `blockIP`
of the same address fails with the state-conflict error and the blocked-IP
map still holds exactly one entry for that address; `unblockIP` of a
never-blocked address fails with the state-conflict error and returns the
state unchanged; and in general each of the six mutations leaves the state
(hence all three blocked-address maps) unchanged whenever it returns an
error. -/
theorem blocker_conflicts_fail_and_errors_frame :
    (∀ w now s ip r s', blockIP w now s ip r = (s', none) →
      ∀ w2 now2 r2,
        blockIP w2 now2 s' ip r2 =
            (s', some ("IP " ++ ip ++ " is already blocked")) ∧
          s'.blockedIPs.countP (fun e => e.1 == ip) = 1) ∧
    (∀ w s ip, s.blockedIPs.lookup ip = none →
      unblockIP w s ip = (s, some ("IP " ++ ip ++ " is not blocked"))) ∧
    (∀ w now s a r, (blockIP w now s a r).2.isSome = true →
      (blockIP w now s a r).1 = s) ∧
    (∀ w s a, (unblockIP w s a).2.isSome = true → (unblockIP w s a).1 = s) ∧
    (∀ w now s a r, (blockMAC w now s a r).2.isSome = true →
      (blockMAC w now s a r).1 = s) ∧
    (∀ w s a, (unblockMAC w s a).2.isSome = true → (unblockMAC w s a).1 = s) ∧
    (∀ w now s a r, (blockBluetoothDevice w now s a r).2.isSome = true →
      (blockBluetoothDevice w now s a r).1 = s) ∧
    (∀ w s a, (unblockBluetoothDevice w s a).2.isSome = true →
      (unblockBluetoothDevice w s a).1 = s) := by
  refine ⟨?_, ?_, blockIP_err_frame, unblockIP_err_frame, blockMAC_err_frame,
    unblockMAC_err_frame, blockBluetoothDevice_err_frame,
    unblockBluetoothDevice_err_frame⟩
  · intro w now s ip r s' h w2 now2 r2
    obtain ⟨hips, hnone, _, _, _⟩ := blockIP_ok_shape h
    constructor
    · unfold blockIP
      rw [if_pos (by simp [hips, List.lookup])]
    · rw [hips, List.countP_cons]
      simp [lookup_none_countP_zero s.blockedIPs ip hnone]
  · intro w s ip h
    unfold unblockIP
    rw [if_pos (by simp [h])]


/-- A world in which every tool is installed and every invocation succeeds. -/
def allToolsWorld : World :=
  { ufwAvail := true, firewallCmdAvail := true, iptablesAvail := true,
    ebtablesAvail := true, rfkillAvail := true, aireplayAvail := true,
    nmapAvail := true, nmapOutput := some "", iwconfigOutput := some "",
    runOk := fun _ => true }

/-- A world in which no tool is installed and every invocation fails. -/
def noToolsWorld : World :=
  { ufwAvail := false, firewallCmdAvail := false, iptablesAvail := false,
    ebtablesAvail := false, rfkillAvail := false, aireplayAvail := false,
    nmapAvail := false, nmapOutput := none, iwconfigOutput := none,
    runOk := fun _ => false }

/-- The Blocker's initial state (`NewBlocker`, part_003:25-33), auto-block
off. -/
def emptyBlockerState : BlockerState :=
  { blockedIPs := [], blockedMACs := [], blockedBTAddrs := [], autoBlock := false }

/-- The state after blocking 1.2.3.4 at time 7 from the initial state. -/
def oneIPBlockedState : BlockerState :=
  { emptyBlockerState with blockedIPs := [("1.2.3.4", 7)] }

/-- Witness for C2 at concrete inputs: after one successful block of
1.2.3.4, the second block fails with the state-conflict error while exactly
one entry for that address is retained; unblocking the never-blocked 9.9.9.9
fails and keeps the state; and a failing block (no tool installed) keeps the
state. -/
theorem blocker_conflicts_witness :
    (blockIP allToolsWorld 8 oneIPBlockedState "1.2.3.4" "y" =
        (oneIPBlockedState, some "IP 1.2.3.4 is already blocked") ∧
      oneIPBlockedState.blockedIPs.countP (fun e => e.1 == "1.2.3.4") = 1) ∧
      unblockIP allToolsWorld emptyBlockerState "9.9.9.9" =
        (emptyBlockerState, some "IP 9.9.9.9 is not blocked") ∧
      (blockIP noToolsWorld 0 emptyBlockerState "1.2.3.4" "x").1 =
        emptyBlockerState :=
  ⟨blocker_conflicts_fail_and_errors_frame.1 allToolsWorld 7 emptyBlockerState
      "1.2.3.4" "x" oneIPBlockedState (by decide) allToolsWorld 8 "y",
    blocker_conflicts_fail_and_errors_frame.2.1 allToolsWorld emptyBlockerState
      "9.9.9.9" (by decide),
    blocker_conflicts_fail_and_errors_frame.2.2.1 noToolsWorld 0
      emptyBlockerState "1.2.3.4" "x" (by decide)⟩

/-- `Blocker.AutoBlockAttack` (part_003:275-296): a no-op unless auto-block
is on; then UNKNOWN_DEVICE / SUSPICIOUS_PORT / AI_CONNECTION_ANOMALY targets
containing a "." are blocked as IPs, BLUETOOTH_SPOOFING / BLUETOOTH_MITM
targets are blocked as Bluetooth addresses, and EVIL_TWIN / ROGUE_AP only
log an intent (no state change). Any other type, or an IP-shaped case whose
target lacks ".", falls out of the switch and returns nil. -/
def autoBlockAttack (w : World) (now : Nat) (s : BlockerState)
    (attack : Attack) : BlockerState × Option String :=
  if !s.autoBlock then (s, none)
  else if attack.type == "UNKNOWN_DEVICE" || attack.type == "SUSPICIOUS_PORT" ||
      attack.type == "AI_CONNECTION_ANOMALY" then
    if strContains attack.target "." then
      blockIP w now s attack.target ("Auto-blocked: " ++ attack.description)
    else (s, none)
  else if attack.type == "BLUETOOTH_SPOOFING" || attack.type == "BLUETOOTH_MITM" then
    blockBluetoothDevice w now s attack.target
      ("Auto-blocked: " ++ attack.description)
  else if attack.type == "EVIL_TWIN" || attack.type == "ROGUE_AP" then
    (s, none)
  else (s, none)

/-- C8: with auto-block disabled, `AutoBlockAttack` is a no-op returning no
error on every finding; with it enabled, an UNKNOWN_DEVICE, SUSPICIOUS_PORT
or AI_CONNECTION_ANOMALY finding whose target contains "." is delegated to
`blockIP`, so on success the target appears in the blocked-IP map; a
BLUETOOTH_SPOOFING or BLUETOOTH_MITM finding is delegated to
`blockBluetoothDevice`, so on success the target appears in the
blocked-Bluetooth map; and an EVIL_TWIN or ROGUE_AP finding performs no
state change and returns no error. -/
theorem autoBlockAttack_gating :
    (∀ w now s atk, s.autoBlock = false →
      autoBlockAttack w now s atk = (s, none)) ∧
    (∀ w now s atk, s.autoBlock = true →
      (atk.type = "UNKNOWN_DEVICE" ∨ atk.type = "SUSPICIOUS_PORT" ∨
        atk.type = "AI_CONNECTION_ANOMALY") →
      strContains atk.target "." = true →
      autoBlockAttack w now s atk =
          blockIP w now s atk.target ("Auto-blocked: " ++ atk.description) ∧
        ∀ s', autoBlockAttack w now s atk = (s', none) →
          (s'.blockedIPs.lookup atk.target).isSome = true) ∧
    (∀ w now s atk, s.autoBlock = true →
      (atk.type = "BLUETOOTH_SPOOFING" ∨ atk.type = "BLUETOOTH_MITM") →
      autoBlockAttack w now s atk =
          blockBluetoothDevice w now s atk.target
            ("Auto-blocked: " ++ atk.description) ∧
        ∀ s', autoBlockAttack w now s atk = (s', none) →
          (s'.blockedBTAddrs.lookup atk.target).isSome = true) ∧
    (∀ w now s atk, s.autoBlock = true →
      (atk.type = "EVIL_TWIN" ∨ atk.type = "ROGUE_AP") →
      autoBlockAttack w now s atk = (s, none)) := by
  refine ⟨?_, ?_, ?_, ?_⟩
  · intro w now s atk hoff
    unfold autoBlockAttack
    rw [if_pos (by simp [hoff])]
  · intro w now s atk hon htype hdot
    have heq : autoBlockAttack w now s atk =
        blockIP w now s atk.target ("Auto-blocked: " ++ atk.description) := by
      unfold autoBlockAttack
      rw [if_neg (by simp [hon])]
      rcases htype with h | h | h <;>
        rw [if_pos (by simp [h]), if_pos hdot]
    refine ⟨heq, ?_⟩
    intro s' hs'
    rw [heq] at hs'
    obtain ⟨hips, -, -, -, -⟩ := blockIP_ok_shape hs'
    simp [hips, List.lookup]
  · intro w now s atk hon htype
    have heq : autoBlockAttack w now s atk =
        blockBluetoothDevice w now s atk.target
          ("Auto-blocked: " ++ atk.description) := by
      unfold autoBlockAttack
      rw [if_neg (by simp [hon])]
      rw [if_neg ?hip]
      case hip =>
        rcases htype with h | h <;> simp [h]
      rcases htype with h | h <;> rw [if_pos (by simp [h])]
    refine ⟨heq, ?_⟩
    intro s' hs'
    rw [heq] at hs'
    obtain ⟨hbts, -, -, -, -⟩ := blockBluetoothDevice_ok_shape hs'
    simp [hbts, List.lookup]
  · intro w now s atk hon htype
    unfold autoBlockAttack
    rw [if_neg (by simp [hon])]
    rw [if_neg ?hip2]
    case hip2 =>
      rcases htype with h | h <;> simp [h]
    rw [if_neg ?hbt2]
    case hbt2 =>
      rcases htype with h | h <;> simp [h]
    rcases htype with h | h <;> rw [if_pos (by simp [h])]

/-- Auto-block enabled, otherwise the initial Blocker state. -/
def autoOnState : BlockerState :=
  { emptyBlockerState with autoBlock := true }

/-- An UNKNOWN_DEVICE finding whose target is IP-shaped. -/
def unknownDeviceAttack : Attack :=
  { type := "UNKNOWN_DEVICE", severity := "High", description := "d",
    target := "1.2.3.4", timestamp := 0 }

/-- Witness for C8: with auto-block off nothing changes and no error is
returned; with it on, the UNKNOWN_DEVICE finding targeting 1.2.3.4 leaves
that address in the blocked-IP map. -/
theorem autoBlockAttack_gating_witness :
    autoBlockAttack allToolsWorld 0 emptyBlockerState arbitraryAttack =
        (emptyBlockerState, none) ∧
      ((autoBlockAttack allToolsWorld 3 autoOnState
          unknownDeviceAttack).1.blockedIPs.lookup "1.2.3.4").isSome = true :=
  ⟨autoBlockAttack_gating.1 allToolsWorld 0 emptyBlockerState arbitraryAttack rfl,
    (autoBlockAttack_gating.2.1 allToolsWorld 3 autoOnState unknownDeviceAttack
        rfl (Or.inl rfl) (by decide)).2
      (autoBlockAttack allToolsWorld 3 autoOnState unknownDeviceAttack).1
      (by decide)⟩

/-- `Blocker.findMonitorInterface` (part_003:325-343): parse the iwconfig
output for the first line containing "Mode:Monitor" and return its first
whitespace-separated field with a trailing ":" removed; an iwconfig failure
or no such line is an error. -/
def findMonitorInterfaceLines : List String → Except String String
  | [] => Except.error "no monitor interface found"
  | l :: rest =>
    if strContains l "Mode:Monitor" then
      match goFields l with
      | [] => findMonitorInterfaceLines rest
      | p :: _ => Except.ok (trimColon p)
    else findMonitorInterfaceLines rest

/-- `Blocker.findMonitorInterface` on a `World`: `iwconfigOutput = none`
models the iwconfig command itself failing. -/
def findMonitorInterface (w : World) : Except String String :=
  match w.iwconfigOutput with
  | none => Except.error "iwconfig failed"
  | some out => findMonitorInterfaceLines (out.splitOn "\n")

/-- `Blocker.DeauthWiFiClient` (part_003:244-264): requires aireplay-ng and
an existing monitor-mode interface, then sends one bounded deauth burst.
The method never touches the blocked-address maps or the auto-block flag;
the state component is returned unchanged on every path. -/
def deauthWiFiClient (w : World) (s : BlockerState)
    (clientMAC apMAC reason : String) : BlockerState × Option String :=
  if !w.aireplayAvail then
    (s, some "aireplay-ng not available for WiFi deauthentication")
  else
    match findMonitorInterface w with
    | Except.error e =>
      (s, some ("no monitor interface available for deauth: " ++ e))
    | Except.ok _ =>
      if w.runOk 0 then (s, none)
      else (s, some ("failed to deauth WiFi client " ++ clientMAC))

/-- C10: `DeauthWiFiClient` never modifies the Blocker's recorded state:
whatever the tool availability, iwconfig output and invocation outcome, and
whether the call succeeds or fails, the three blocked-address maps and the
auto-block flag after the call equal their values before it. -/
theorem deauthWiFiClient_frame (w : World) (s : BlockerState)
    (clientMAC apMAC reason : String) :
    (deauthWiFiClient w s clientMAC apMAC reason).1.blockedIPs = s.blockedIPs ∧
      (deauthWiFiClient w s clientMAC apMAC reason).1.blockedMACs = s.blockedMACs ∧
      (deauthWiFiClient w s clientMAC apMAC reason).1.blockedBTAddrs =
        s.blockedBTAddrs ∧
      (deauthWiFiClient w s clientMAC apMAC reason).1.autoBlock = s.autoBlock := by
  unfold deauthWiFiClient
  cases hb : (!w.aireplayAvail) with
  | true => simp [hb]
  | false =>
    simp only [hb, Bool.false_eq_true, if_false]
    cases hm : findMonitorInterface w with
    | error e => simp [hm]
    | ok i =>
      simp only [hm]
      cases hr : w.runOk 0 <;> simp [hr]

/-- `monitors.DetectNetworkAttacks`'s dangerous-port table
(monitors.go:1030-1035), in the literal's textual order (the Go map
iteration order is unspecified). -/
def dangerousPorts : List (String × String) :=
  [("21/tcp", "FTP"), ("23/tcp", "Telnet"), ("3389/tcp", "RDP"), ("445/tcp", "SMB")]

/-- `monitors.DetectNetworkAttacks` (monitors.go:1019-1052). Unlike the
Wi-Fi and Bluetooth heuristics it takes no sample set: it looks up nmap,
runs an nmap port scan, and derives findings from that command's output, so
its result is a function of the external world. `nmapOutput = none` models
the nmap invocation failing. -/
def detectNetworkAttacks (w : World) (now : Nat) : List Attack :=
  if w.nmapAvail then
    match w.nmapOutput with
    | some outputStr =>
      dangerousPorts.filterMap fun pr =>
        if strContains outputStr pr.1 && strContains outputStr "open" then
          some { type := "SUSPICIOUS_PORT", severity := "Medium",
                 description := "Suspicious open port detected: " ++ pr.1 ++
                   " (" ++ pr.2 ++ ")",
                 target := "network", timestamp := now }
        else none
    | none => []
  else []

/-- C5 counterexample: `DetectNetworkAttacks` is not a pure function of an
input sample set — it has no sample-set input at all, and two runs in
different tool environments return different findings: with nmap absent it
returns nothing, while with nmap present and reporting port 21 open it
returns a SUSPICIOUS_PORT finding. -/
theorem detectNetworkAttacks_env_dependent :
    detectNetworkAttacks noToolsWorld 0 ≠
      detectNetworkAttacks
        { allToolsWorld with nmapOutput := some "21/tcp open ftp" } 0 := by
  decide

/-- C5 amended: the Wi-Fi and Bluetooth heuristics are pure functions of
their sample sets (they are embedded below without any `World` argument),
but `DetectNetworkAttacks` performs external I/O; its findings are
determined exactly by the nmap-related part of the environment: any two
worlds agreeing on nmap availability and nmap output produce the same
findings, whatever their other tools report. -/
theorem detectNetworkAttacks_determined_by_nmap (w1 w2 : World) (now : Nat)
    (havail : w1.nmapAvail = w2.nmapAvail)
    (hout : w1.nmapOutput = w2.nmapOutput) :
    detectNetworkAttacks w1 now = detectNetworkAttacks w2 now := by
  unfold detectNetworkAttacks
  rw [havail, hout]

/-- nmap reporting telnet open, in an otherwise tool-free world. -/
def nmapOnlyWorld : World :=
  { noToolsWorld with
    nmapAvail := true
    nmapOutput := some "23/tcp open telnet" }

/-- nmap reporting telnet open, in a world with every other tool present. -/
def nmapAmongAllWorld : World :=
  { allToolsWorld with
    nmapOutput := some "23/tcp open telnet" }

/-- Witness for the amended C5: two worlds that differ in every non-nmap
field but agree on the nmap fields yield identical findings. -/
theorem detectNetworkAttacks_determined_by_nmap_witness :
    nmapOnlyWorld.nmapAvail = nmapAmongAllWorld.nmapAvail ∧
      detectNetworkAttacks nmapOnlyWorld 5 =
        detectNetworkAttacks nmapAmongAllWorld 5 :=
  ⟨rfl, detectNetworkAttacks_determined_by_nmap nmapOnlyWorld nmapAmongAllWorld
    5 rfl rfl⟩

/-- One Go-map update `ssidCounts[k] = append(ssidCounts[k], v)`
(monitors.go:908), on an association list holding each key once: extend the
existing entry for `k`, or add a new entry. -/
def insertGroup : List (String × List String) → String → String →
    List (String × List String)
  | [], k, v => [(k, [v])]
  | g :: rest, k, v =>
    if g.1 = k then (g.1, g.2 ++ [v]) :: rest else g :: insertGroup rest k v

/-- The grouping filter of the Evil Twin loop (monitors.go:907): only
non-empty, non-"Hidden" SSIDs are grouped. -/
def wifiGroupPred (d : WifiAP) : Bool :=
  d.essid != "" && d.essid != "Hidden"

/-- `ssidCounts` of `DetectWiFiAttacks` (monitors.go:905-910): the BSSIDs of
each grouped SSID, keyed by SSID. -/
def ssidGroups (devices : List WifiAP) : List (String × List String) :=
  devices.foldl
    (fun acc d =>
      if wifiGroupPred d then insertGroup acc d.essid d.bssid else acc) []

/-- One iteration of the Evil Twin emission loop (monitors.go:912-922): an
SSID grouped with more than one BSSID entry yields one High finding. -/
def evilTwinFindingOf (now : Nat) (g : String × List String) : Option Attack :=
  if g.2.length > 1 then
    some { type := "EVIL_TWIN", severity := "High",
           description := "Potential evil twin attack: SSID " ++ g.1 ++
             " appears " ++ toString g.2.length ++ " times",
           target := g.1, timestamp := now }
  else none

/-- The rogue-SSID word list (monitors.go:925). -/
def roguePatterns : List String :=
  ["free", "public", "hack", "test", "evil", "wifi", "guest", "default"]

/-- One iteration of the Rogue AP loop (monitors.go:926-940): an AP whose
lowercased SSID contains a suspicious word yields one High finding (the Go
inner loop breaks at the first matching word, so one finding per AP). -/
def rogueFindingOf (now : Nat) (d : WifiAP) : Option Attack :=
  if roguePatterns.any (fun p => strContains d.essid.toLower p) then
    some { type := "ROGUE_AP", severity := "High",
           description := "Potentially rogue access point detected: " ++ d.essid,
           target := d.essid, timestamp := now }
  else none

/-- One iteration of the Weak Encryption loop (monitors.go:943-953). -/
def weakEncFindingOf (now : Nat) (d : WifiAP) : Option Attack :=
  if strContains d.enc.toLower "wep" then
    some { type := "WEAK_ENCRYPTION", severity := "High",
           description := "Weak encryption (WEP) detected on network: " ++ d.essid,
           target := d.essid, timestamp := now }
  else none

/-- `monitors.DetectWiFiAttacks` (monitors.go:901-956): Evil Twin findings
from the SSID groups, then one Rogue AP finding per AP whose lowercased SSID
contains a suspicious word, then one Weak Encryption finding per AP whose
lowercased encryption tag contains "wep". A pure function of the sample set
(plus the timestamp tag). -/
def detectWiFiAttacks (devices : List WifiAP) (now : Nat) : List Attack :=
  (ssidGroups devices).filterMap (evilTwinFindingOf now) ++
    devices.filterMap (rogueFindingOf now) ++
    devices.filterMap (weakEncFindingOf now)

/-- The suspicious Bluetooth name list (monitors.go:974). -/
def suspiciousNames : List String :=
  ["attack", "hack", "exploit", "test", "spoof", "evil", "malware", "virus"]

/-- The MITM name table (monitors.go:992-997), in the literal's textual
order. -/
def mitmPatterns : List (String × String) :=
  [("proxy", "proxy"), ("gateway", "gateway"), ("bridge", "bridge"),
    ("intercept", "intercept")]

/-- `monitors.DetectBluetoothAttacks` (monitors.go:959-1016): a Medium
mass-scanning finding above 20 devices, one High spoofing finding per
suspiciously named device, one High MITM finding per matching device. Also a
pure function of the sample set. -/
def detectBluetoothAttacks (devices : List BluetoothDevice) (now : Nat) :
    List Attack :=
  (if devices.length > 20 then
    [{ type := "BLUETOOTH_MASS_SCANNING", severity := "Medium",
       description := "Mass scanning detected: " ++ toString devices.length ++
         " Bluetooth devices found (unusual activity)",
       target := "bluetooth_network", timestamp := now }]
  else []) ++
    devices.filterMap (fun d =>
      if suspiciousNames.any (fun p => strContains d.name.toLower p) then
        some { type := "BLUETOOTH_SPOOFING", severity := "High",
               description := "Suspicious Bluetooth device name: " ++ d.name ++
                 " (" ++ d.address ++ ")",
               target := d.address, timestamp := now }
      else none) ++
    devices.filterMap (fun d =>
      match mitmPatterns.find? (fun pr => strContains d.name.toLower pr.1) with
      | some pr =>
        some { type := "BLUETOOTH_MITM", severity := "High",
               description := "Potential Man-in-the-Middle device: " ++ d.name ++
                 " (" ++ d.address ++ ") - appears to be " ++ pr.2,
               target := d.address, timestamp := now }
      | none => none)

/-- The BSSID list recorded for key `k` (Go reads `ssidCounts[ssid]`). -/
def lookupGroup (groups : List (String × List String)) (k : String) :
    List String :=
  match groups.find? (fun g => g.1 == k) with
  | some g => g.2
  | none => []

/-- The key list of the grouping association list. -/
def groupKeys (groups : List (String × List String)) : List String :=
  groups.map Prod.fst

theorem insertGroup_lookup_self (groups : List (String × List String))
    (k v : String) :
    lookupGroup (insertGroup groups k v) k = lookupGroup groups k ++ [v] := by
  induction groups with
  | nil => simp [insertGroup, lookupGroup]
  | cons g rest ih =>
    by_cases hg : g.1 = k
    · simp [insertGroup, lookupGroup, hg]
    · have hgb : (g.1 == k) = false := by
        exact beq_eq_false_iff_ne.mpr hg
      simp only [insertGroup, if_neg hg, lookupGroup, List.find?_cons, hgb]
      exact ih

theorem insertGroup_lookup_other (groups : List (String × List String))
    (k v k' : String) (h : k' ≠ k) :
    lookupGroup (insertGroup groups k v) k' = lookupGroup groups k' := by
  induction groups with
  | nil =>
    have : (k == k') = false := beq_eq_false_iff_ne.mpr (Ne.symm h)
    simp [insertGroup, lookupGroup, this]
  | cons g rest ih =>
    by_cases hg : g.1 = k
    · have hk' : (k == k') = false := beq_eq_false_iff_ne.mpr (Ne.symm h)
      have hg' : (g.1 == k') = false := by rw [hg]; exact hk'
      simp [insertGroup, lookupGroup, hg, List.find?_cons, hk', hg']
    · cases hgk : (g.1 == k') with
      | true => simp [insertGroup, lookupGroup, if_neg hg, hgk]
      | false =>
        simp only [insertGroup, if_neg hg, lookupGroup, List.find?_cons, hgk]
        exact ih

theorem insertGroup_keys (groups : List (String × List String)) (k v : String) :
    groupKeys (insertGroup groups k v) =
      if k ∈ groupKeys groups then groupKeys groups else groupKeys groups ++ [k] := by
  induction groups with
  | nil => simp [insertGroup, groupKeys]
  | cons g rest ih =>
    by_cases hg : g.1 = k
    · simp [insertGroup, groupKeys, hg]
    · have hkg : k ≠ g.1 := Ne.symm hg
      simp only [insertGroup, if_neg hg, groupKeys, List.map_cons] at ih ⊢
      rw [ih]
      by_cases hk : k ∈ List.map Prod.fst rest
      · rw [if_pos hk, if_pos (by simp [List.mem_cons, hk])]
      · rw [if_neg hk, if_neg (by simp [List.mem_cons, hkg, hk]), List.cons_append]

theorem insertGroup_keys_nodup (groups : List (String × List String))
    (k v : String) (h : (groupKeys groups).Nodup) :
    (groupKeys (insertGroup groups k v)).Nodup := by
  rw [insertGroup_keys]
  split_ifs with hmem
  · exact h
  · simp [List.nodup_append, h, hmem]

theorem ssidGroups_keys_nodup (devices : List WifiAP) :
    (groupKeys (ssidGroups devices)).Nodup := by
  suffices h : ∀ acc : List (String × List String), (groupKeys acc).Nodup →
      (groupKeys (devices.foldl
        (fun acc d =>
          if wifiGroupPred d then insertGroup acc d.essid d.bssid else acc)
        acc)).Nodup by
    exact h [] (by simp [groupKeys])
  induction devices with
  | nil => intro acc hacc; simpa using hacc
  | cons d rest ih =>
    intro acc hacc
    rw [List.foldl_cons]
    by_cases hp : wifiGroupPred d
    · rw [if_pos hp]
      exact ih _ (insertGroup_keys_nodup acc d.essid d.bssid hacc)
    · rw [if_neg hp]
      exact ih _ hacc

theorem lookupGroup_eq_nil_of_not_mem (groups : List (String × List String))
    (k : String) (h : k ∉ groupKeys groups) : lookupGroup groups k = [] := by
  induction groups with
  | nil => rfl
  | cons g rest ih =>
    have hne : g.1 ≠ k := by
      intro he
      exact h (by simp [groupKeys, he])
    have hgb : (g.1 == k) = false := beq_eq_false_iff_ne.mpr hne
    simp only [lookupGroup, List.find?_cons, hgb]
    exact ih (fun hm => h (by simp [groupKeys] at hm ⊢; exact Or.inr hm))

theorem ssidGroups_lookup (devices : List WifiAP) (ssid : String) :
    ∀ acc : List (String × List String),
      lookupGroup
          (devices.foldl
            (fun acc d =>
              if wifiGroupPred d then insertGroup acc d.essid d.bssid else acc)
            acc) ssid =
        lookupGroup acc ssid ++
          ((devices.filter fun d => wifiGroupPred d && d.essid == ssid)).map
            WifiAP.bssid := by
  induction devices with
  | nil => intro acc; simp
  | cons d rest ih =>
    intro acc
    rw [List.foldl_cons]
    by_cases hp : wifiGroupPred d
    · by_cases he : d.essid = ssid
      · have hfcons :
            List.filter (fun x => wifiGroupPred x && x.essid == ssid) (d :: rest) =
              d :: List.filter (fun x => wifiGroupPred x && x.essid == ssid) rest := by
          simp [List.filter_cons, hp, he]
        rw [if_pos hp, ih (insertGroup acc d.essid d.bssid), hfcons,
          List.map_cons, he, insertGroup_lookup_self, List.append_assoc,
          List.singleton_append]
      · have hfcons :
            List.filter (fun x => wifiGroupPred x && x.essid == ssid) (d :: rest) =
              List.filter (fun x => wifiGroupPred x && x.essid == ssid) rest := by
          simp [List.filter_cons, hp, he]
        rw [if_pos hp, ih (insertGroup acc d.essid d.bssid), hfcons,
          insertGroup_lookup_other acc d.essid d.bssid ssid (fun hc => he hc.symm)]
    · have hfcons :
          List.filter (fun x => wifiGroupPred x && x.essid == ssid) (d :: rest) =
            List.filter (fun x => wifiGroupPred x && x.essid == ssid) rest := by
        simp [List.filter_cons, hp]
      rw [if_neg hp, ih acc, hfcons]

theorem evilTwin_emit_count (now : Nat) (ssid : String) :
    ∀ groups : List (String × List String), (groupKeys groups).Nodup →
      ((groups.filterMap (evilTwinFindingOf now)).filter
          (fun a => a.type == "EVIL_TWIN" && a.target == ssid)).length =
        if 1 < (lookupGroup groups ssid).length then 1 else 0 := by
  intro groups
  induction groups with
  | nil => intro _; simp [lookupGroup]
  | cons g rest ih =>
    intro hnd
    have hnd' := hnd
    rw [groupKeys, List.map_cons, List.nodup_cons] at hnd'
    obtain ⟨hgnotin, hndrest⟩ := hnd'
    rw [List.filterMap_cons]
    by_cases hk : g.1 = ssid
    · have hbeq : (g.1 == ssid) = true := by simp [hk]
      have hlg : lookupGroup (g :: rest) ssid = g.2 := by
        simp [lookupGroup, List.find?_cons, hbeq]
      have hrest0 : lookupGroup rest ssid = [] := by
        apply lookupGroup_eq_nil_of_not_mem
        rw [← hk]
        exact fun hm => hgnotin (by simpa [groupKeys] using hm)
      have hih := ih hndrest
      rw [hrest0] at hih
      simp only [List.length_nil] at hih
      rw [if_neg (by omega)] at hih
      cases hgE : evilTwinFindingOf now g with
      | none =>
        have hlen : ¬ 1 < g.2.length := by
          by_contra hcon
          unfold evilTwinFindingOf at hgE
          rw [if_pos (by omega)] at hgE
          cases hgE
        rw [hih, hlg, if_neg hlen]
      | some att =>
        have hlen : 1 < g.2.length := by
          by_contra hcon
          unfold evilTwinFindingOf at hgE
          rw [if_neg (by omega)] at hgE
          cases hgE
        have hatt : att.type = "EVIL_TWIN" ∧ att.target = g.1 := by
          unfold evilTwinFindingOf at hgE
          rw [if_pos (by omega)] at hgE
          injection hgE with hgE
          rw [← hgE]
          exact ⟨rfl, rfl⟩
        have hp : (att.type == "EVIL_TWIN" && att.target == ssid) = true := by
          simp [hatt.1, hatt.2, hk]
        rw [List.filter_cons, if_pos hp, List.length_cons, hih, hlg,
          if_pos hlen]
    · have hbeq : (g.1 == ssid) = false := beq_eq_false_iff_ne.mpr hk
      have hlg : lookupGroup (g :: rest) ssid = lookupGroup rest ssid := by
        simp [lookupGroup, List.find?_cons, hbeq]
      cases hgE : evilTwinFindingOf now g with
      | none => rw [ih hndrest, hlg]
      | some att =>
        have hlen : 1 < g.2.length := by
          by_contra hcon
          unfold evilTwinFindingOf at hgE
          rw [if_neg (by omega)] at hgE
          cases hgE
        have hatt : att.target = g.1 := by
          unfold evilTwinFindingOf at hgE
          rw [if_pos (by omega)] at hgE
          injection hgE with hgE
          rw [← hgE]
        have hp : (att.type == "EVIL_TWIN" && att.target == ssid) = false := by
          have : (att.target == ssid) = false := by
            rw [hatt]
            exact hbeq
          simp [this]
        rw [List.filter_cons, if_neg (by simp [hp]), ih hndrest, hlg]

/-- C6: on a sample set whose BSSIDs are distinct (the data model's
uniqueness invariant for BSSIDs within one sample set), `DetectWiFiAttacks`
yields exactly one EVIL_TWIN finding for each non-empty, non-"Hidden" SSID
carrying at least two distinct BSSIDs and none for any other SSID, and every
EVIL_TWIN finding has High severity. -/
theorem detectWiFiAttacks_evil_twin (devices : List WifiAP) (now : Nat)
    (ssid : String) (hb : (devices.map WifiAP.bssid).Nodup) :
    (((detectWiFiAttacks devices now).filter
        (fun a => a.type == "EVIL_TWIN" && a.target == ssid)).length =
      if 1 < (((devices.filter fun d => wifiGroupPred d && d.essid == ssid).map
          WifiAP.bssid).dedup).length then 1 else 0) ∧
    ∀ a ∈ detectWiFiAttacks devices now, a.type = "EVIL_TWIN" →
      a.severity = "High" := by
  have hrogue : ∀ a ∈ devices.filterMap (rogueFindingOf now),
      a.type = "ROGUE_AP" := by
    intro a ha
    obtain ⟨d, -, hd⟩ := List.mem_filterMap.mp ha
    unfold rogueFindingOf at hd
    split_ifs at hd
    injection hd with hd
    rw [← hd]
  have hweak : ∀ a ∈ devices.filterMap (weakEncFindingOf now),
      a.type = "WEAK_ENCRYPTION" := by
    intro a ha
    obtain ⟨d, -, hd⟩ := List.mem_filterMap.mp ha
    unfold weakEncFindingOf at hd
    split_ifs at hd
    injection hd with hd
    rw [← hd]
  constructor
  · have h1 : (devices.filterMap (rogueFindingOf now)).filter
        (fun a => a.type == "EVIL_TWIN" && a.target == ssid) = [] :=
      List.filter_eq_nil_iff.mpr (fun a ha => by simp [hrogue a ha])
    have h2 : (devices.filterMap (weakEncFindingOf now)).filter
        (fun a => a.type == "EVIL_TWIN" && a.target == ssid) = [] :=
      List.filter_eq_nil_iff.mpr (fun a ha => by simp [hweak a ha])
    have hsplit : (detectWiFiAttacks devices now).filter
        (fun a => a.type == "EVIL_TWIN" && a.target == ssid) =
        ((ssidGroups devices).filterMap (evilTwinFindingOf now)).filter
          (fun a => a.type == "EVIL_TWIN" && a.target == ssid) := by
      unfold detectWiFiAttacks
      rw [List.filter_append, List.filter_append, h1, h2]
      simp
    have hlg : lookupGroup (ssidGroups devices) ssid =
        (devices.filter fun d => wifiGroupPred d && d.essid == ssid).map
          WifiAP.bssid := by
      have h := ssidGroups_lookup devices ssid []
      unfold ssidGroups
      simpa [lookupGroup] using h
    have hnd : ((devices.filter fun d => wifiGroupPred d && d.essid == ssid).map
        WifiAP.bssid).Nodup :=
      hb.sublist ((List.filter_sublist devices).map WifiAP.bssid)
    rw [hsplit,
      evilTwin_emit_count now ssid (ssidGroups devices)
        (ssidGroups_keys_nodup devices),
      hlg, List.dedup_eq_self.mpr hnd]
  · intro a ha htype
    unfold detectWiFiAttacks at ha
    rcases List.mem_append.mp ha with hevr | hwk
    · rcases List.mem_append.mp hevr with hev | hrg
      · obtain ⟨g, -, hg⟩ := List.mem_filterMap.mp hev
        unfold evilTwinFindingOf at hg
        split_ifs at hg
        injection hg with hg
        rw [← hg]
      · exact absurd (htype ▸ hrogue a hrg) (by decide)
    · exact absurd (htype ▸ hweak a hwk) (by decide)

/-- The three access points of the specification's Evil Twin test case. -/
def demoAPs : List WifiAP :=
  [{ bssid := "AA:AA", pwr := 0, beacons := 0, enc := "WPA2", essid := "Home" },
   { bssid := "BB:BB", pwr := 0, beacons := 0, enc := "WPA2", essid := "Home" },
   { bssid := "CC:CC", pwr := 0, beacons := 0, enc := "WPA2", essid := "Office" }]

/-- Witness for C6 on the specification's concrete input: exactly one
EVIL_TWIN finding targets "Home" and none targets "Office". -/
theorem detectWiFiAttacks_evil_twin_witness :
    (demoAPs.map WifiAP.bssid).Nodup ∧
      ((detectWiFiAttacks demoAPs 0).filter
          (fun a => a.type == "EVIL_TWIN" && a.target == "Home")).length = 1 ∧
      ((detectWiFiAttacks demoAPs 0).filter
          (fun a => a.type == "EVIL_TWIN" && a.target == "Office")).length = 0 :=
  ⟨by decide,
    by
      rw [(detectWiFiAttacks_evil_twin demoAPs 0 "Home" (by decide)).1]
      decide,
    by
      rw [(detectWiFiAttacks_evil_twin demoAPs 0 "Office" (by decide)).1]
      decide⟩

/-- Which command descriptor `runCommandOrSudo` hands back: the original
command or the sudo-prefixed one. -/
inductive Invoked where
  | original
  | elevated
deriving DecidableEq

/-- The outcome of one command invocation: its combined output and, when it
failed, its Go error text. -/
structure CmdResult where
  out : String
  err : Option String
deriving DecidableEq

/-- The fixed permission-shaped failure indicators of `runCommandOrSudo`
(monitors.go:25-32). -/
def sudoIndicators : List String :=
  ["Permission denied", "Operation not permitted", "Device or resource busy",
   "interface not in monitor mode", "no such device",
   "rtl_power: failed to open rtl"]

/-- `monitors.runCommandOrSudo` (monitors.go:16-61). `first` is the plain
invocation's result, `sudoAvail` whether `exec.LookPath` finds sudo, and
`sudoResult` what the sudo-prefixed re-invocation would return. On success
the first result is returned; on failure the combined output plus error
text is matched against the fixed indicators united with the caller's extra
patterns, and only a match with sudo available swaps in the elevated
attempt's result (success or failure); otherwise the original result comes
back unchanged. -/
def runCommandOrSudo (first : CmdResult) (extraPatterns : List String)
    (sudoAvail : Bool) (sudoResult : CmdResult) : Invoked × CmdResult :=
  match first.err with
  | none => (Invoked.original, first)
  | some e =>
    let errorStr := first.out ++ e
    if (sudoIndicators ++ extraPatterns).any (fun ind => strContains errorStr ind) then
      if sudoAvail then (Invoked.elevated, sudoResult)
      else (Invoked.original, first)
    else (Invoked.original, first)

/-- C7: the Tool Invoker returns the first result unchanged on success; on
failure, when some fixed or caller-supplied indicator occurs in the combined
output-plus-error text, it returns the elevated re-invocation's result
(whatever that is) if sudo exists and the original failure if not; and when
no indicator occurs it returns the original failure unchanged. -/
theorem runCommandOrSudo_spec (first : CmdResult) (extra : List String)
    (sudoAvail : Bool) (sudoResult : CmdResult) :
    (first.err = none →
      runCommandOrSudo first extra sudoAvail sudoResult =
        (Invoked.original, first)) ∧
    (∀ e, first.err = some e →
      ((∃ p ∈ sudoIndicators ++ extra, p.toList <:+: (first.out ++ e).toList) →
        (sudoAvail = true →
          runCommandOrSudo first extra sudoAvail sudoResult =
            (Invoked.elevated, sudoResult)) ∧
        (sudoAvail = false →
          runCommandOrSudo first extra sudoAvail sudoResult =
            (Invoked.original, first))) ∧
      ((∀ p ∈ sudoIndicators ++ extra, ¬ p.toList <:+: (first.out ++ e).toList) →
        runCommandOrSudo first extra sudoAvail sudoResult =
          (Invoked.original, first))) := by
  constructor
  · intro hok
    unfold runCommandOrSudo
    rw [hok]
  · intro e herr
    have hmatch : ((sudoIndicators ++ extra).any
          (fun ind => strContains (first.out ++ e) ind) = true) ↔
        ∃ p ∈ sudoIndicators ++ extra, p.toList <:+: (first.out ++ e).toList := by
      rw [List.any_eq_true]
      constructor
      · rintro ⟨p, hp, hc⟩
        exact ⟨p, hp, of_decide_eq_true hc⟩
      · rintro ⟨p, hp, hc⟩
        exact ⟨p, hp, decide_eq_true hc⟩
    constructor
    · intro hind
      constructor
      · intro hsudo
        unfold runCommandOrSudo
        rw [herr]
        simp only
        rw [if_pos (hmatch.mpr hind), if_pos hsudo]
      · intro hsudo
        unfold runCommandOrSudo
        rw [herr]
        simp only
        rw [if_pos (hmatch.mpr hind), if_neg (by simp [hsudo])]
    · intro hind
      unfold runCommandOrSudo
      rw [herr]
      simp only
      rw [if_neg (fun hc => by
        obtain ⟨p, hp, hcc⟩ := hmatch.mp hc
        exact hind p hp hcc)]

/-- Witness for C7 at concrete results: a "Permission denied" failure with
sudo available returns the elevated attempt's result; the same failure
without sudo, and an unmatched failure, return the original result. -/
theorem runCommandOrSudo_spec_witness :
    runCommandOrSudo { out := "Permission denied", err := some ": exit status 1" }
        [] true { out := "ok", err := none } =
      (Invoked.elevated, { out := "ok", err := none }) ∧
    runCommandOrSudo { out := "Permission denied", err := some ": exit status 1" }
        [] false { out := "ok", err := none } =
      (Invoked.original, { out := "Permission denied", err := some ": exit status 1" }) ∧
    runCommandOrSudo { out := "segmentation fault", err := some ": exit status 2" }
        [] true { out := "ok", err := none } =
      (Invoked.original, { out := "segmentation fault", err := some ": exit status 2" }) :=
  ⟨((runCommandOrSudo_spec
        { out := "Permission denied", err := some ": exit status 1" } [] true
        { out := "ok", err := none }).2 ": exit status 1" rfl).1
      (by exact ⟨"Permission denied", by decide, by decide⟩) |>.1 rfl,
    ((runCommandOrSudo_spec
        { out := "Permission denied", err := some ": exit status 1" } [] false
        { out := "ok", err := none }).2 ": exit status 1" rfl).1
      (by exact ⟨"Permission denied", by decide, by decide⟩) |>.2 rfl,
    ((runCommandOrSudo_spec
        { out := "segmentation fault", err := some ": exit status 2" } [] true
        { out := "ok", err := none }).2 ": exit status 2" rfl).2
      (by decide)⟩

/-- The post-loop step of `MonitorNetwork` (monitors.go:239-244): split the
collected summary value on "/" and take the second piece as the average
latency with "ms" appended, defaulting to "Unknown" when fewer than two
pieces exist. -/
def latencyFromRttMin (rttMin : String) : String :=
  match goSplit rttMin '/' with
  | _ :: p1 :: _ => p1 ++ "ms"
  | _ => "Unknown"

/-- The parsing step of `MonitorNetwork` on a successful ping's output
(monitors.go:229-244). The Go loop takes the first line containing
"rtt min/avg/max/mdev" and evaluates `strings.SplitN(line, "=", 2)[1]`
(monitors.go:235): when the line has no "=", `SplitN` yields a single
element and the index access is out of range — a runtime fault, modelled as
`none`. When no line matches, the summary value stays "" and the latency
becomes "Unknown". -/
def monitorNetworkParse (outputStr : String) : Option String :=
  match (goSplit outputStr '\n').find?
      (fun l => strContains l "rtt min/avg/max/mdev") with
  | some line =>
    match splitN2 line '=' with
    | _ :: second :: _ => some (latencyFromRttMin (goTrim second))
    | _ => none
  | none => some (latencyFromRttMin "")

/-- One `MonitorNetwork` pass (monitors.go:209-261) at the NetworkInfo
level: a failed ping publishes offline with latency "N/A"; a successful ping
publishes online with the parsed latency, where `none` stands for the
sampler faulting during parsing. -/
def monitorNetworkInfo (pingFailed : Bool) (output : String) :
    Option NetworkInfo :=
  if pingFailed then some { online := false, avgLatency := "N/A" }
  else (monitorNetworkParse output).map
    (fun l => { online := true, avgLatency := l })

/-- C9 (code bug): the sampler's handling of ping output is not total. A
failed ping does yield offline/"N/A", a well-formed summary line does yield
the average field with "ms" appended, and output with no summary line does
yield "Unknown" — but a summary-marker line that lacks the "=" separator
makes the Go code index `SplitN(line, "=", 2)[1]` out of range and crash
instead of completing with "Unknown" as the claim states. -/
theorem monitorNetwork_parse_paths :
    monitorNetworkInfo true "" = some { online := false, avgLatency := "N/A" } ∧
      monitorNetworkInfo false
          "PING 8.8.8.8\nrtt min/avg/max/mdev = 11.1/12.3/13.5/0.9 ms\n" =
        some { online := true, avgLatency := "12.3ms" } ∧
      monitorNetworkInfo false "PING 8.8.8.8\nno packets\n" =
        some { online := true, avgLatency := "Unknown" } ∧
      monitorNetworkInfo false "rtt min/avg/max/mdev" = none := by
  decide
